import Mathlib

set_option linter.unusedVariables false

/-!
Verification of the file-ingestion pipeline (`src/main.py`) of
`benjaminwestern/py-file-ingestion`.

The development shallowly embeds the pure core of the program:
the mapping loader (`load_column_mappings`), the mapping validator
(`validate_mapping_config`), the per-file normalization step inside
`process_files` (construction of `new_df`, the attribute extraction and
the JSON-row conversion), and the per-file orchestration state machine
(the `stats` dictionary of `process_files`).

External effects (file parsing by pandas, the BigQuery load job, the
wall clock) enter as explicit parameters: parse and sink results are
`Except` values supplied by an oracle, and each call of `now()` /
`pd.Timestamp.now()` is an explicit string argument.
-/

namespace Ingest

/-! ## Python values

Configuration documents (YAML / JSON) deserialize to Python objects;
`PyValue` models the shapes they can take.  Dictionary keys are strings,
matching JSON objects and the string keys used by the program. -/

inductive PyValue where
  | null
  | bool (b : Bool)
  | int (n : Int)
  | str (s : String)
  | list (l : List PyValue)
  | dict (l : List (String × PyValue))

/-- First-match lookup in a Python dict, i.e. `d[k]` / `k in d`. -/
def lookupPy (l : List (String × PyValue)) (k : String) : Option PyValue :=
  match l with
  | [] => none
  | p :: rest => if p.1 = k then some p.2 else lookupPy rest k

/-- `isinstance(v, dict)`. -/
def isDict : PyValue → Bool
  | .dict _ => true
  | _ => false

/-- `s.endswith(suffix)` on the character sequence of a string. -/
def strEndsWith (s suffix : String) : Bool :=
  suffix.data.isSuffixOf s.data

/-- `s.lower()`. -/
def lowerStr (s : String) : String :=
  ⟨s.data.map Char.toLower⟩

/-- `str(v)` for the scalar shapes the program feeds into names and
attribute keys. -/
def pyName : PyValue → String
  | .null => "None"
  | .bool b => if b then "True" else "False"
  | .int n => toString n
  | .str s => s
  | .list _ => "<list>"
  | .dict _ => "<dict>"

/-! ## `validate_mapping_config` (src/main.py lines 23-33) -/

/-- Embedding of `validate_mapping_config(mapping, filename)`. -/
def validate_mapping_config (mapping : PyValue) (filename : String) : Bool :=
  match mapping with
  | .dict l =>
    match lookupPy l "columns" with
    | none => false
    | some c =>
      if !isDict c then false
      else
        match lookupPy l "attributes" with
        | none => true
        | some a => if !isDict a then false else true
  | _ => false

/-! ## `load_column_mappings` (src/main.py lines 10-21)

The function opens the file and dispatches on the filename suffix:
`.yaml`/`.yml` go to `yaml.safe_load`, `.json` to `json.load`, anything
else raises `ValueError("Mapping file must be either YAML or JSON")`.
The surrounding `try`/`except` catches every exception `e` (the
`ValueError` included) and re-raises the generic
`Exception(f"Error loading mapping file: {str(e)}")`.

Parsing is external; the outcome of the YAML and JSON parsers on this
file's content are passed in as `Except` oracles.  An exception is a
pair of its Python class name and its message (`str(e)` is the
message). -/

structure PyExn where
  ty : String
  msg : String
  deriving DecidableEq, Repr

/-- Embedding of `load_column_mappings(mapping_file)`; `yamlResult` and
`jsonResult` are the outcomes `yaml.safe_load(f)` / `json.load(f)` would
produce on the file's content (errors covering unreadable files too). -/
def load_column_mappings (mapping_file : String)
    (yamlResult jsonResult : Except PyExn PyValue) : Except PyExn PyValue :=
  let inner : Except PyExn PyValue :=
    if strEndsWith mapping_file ".yaml" || strEndsWith mapping_file ".yml" then
      yamlResult
    else if strEndsWith mapping_file ".json" then
      jsonResult
    else
      .error ⟨"ValueError", "Mapping file must be either YAML or JSON"⟩
  match inner with
  | .ok v => .ok v
  | .error e => .error ⟨"Exception", "Error loading mapping file: " ++ e.msg⟩

/-! ## Tabular data

A cell of a parsed dataframe (`pd.read_csv` / `pd.read_excel`) holds a
scalar or a missing value; `Cell.na` covers both `None` and `NaN`
(exactly the values on which `pd.isna` is true). -/

inductive Cell where
  | str (s : String)
  | int (n : Int)
  | na
  deriving DecidableEq, Repr

/-- `pd.notna(c)`. -/
def notna : Cell → Bool
  | .na => false
  | _ => true

/-- `str(c)` for a scalar cell. -/
def cellStr : Cell → String
  | .str s => s
  | .int n => toString n
  | .na => "nan"

/-- A parsed dataframe `df`: named columns in order, each a list of
cells, together with the row count `len(df)`.  Well-formed frames have
every column of length `nrows` (pandas guarantees this); the theorems
that need it take it as a hypothesis. -/
structure DataFrame where
  cols : List (String × List Cell)
  nrows : Nat

/-- `df[c]` when `c in df.columns`, first match. -/
def dfGet (df : DataFrame) (c : String) : Option (List Cell) :=
  match df.cols.find? (fun p => p.1 = c) with
  | some p => some p.2
  | none => none

/-- An element of a row's `Attributes` list:
`{'Key': attr_name, 'Value': str(value)}`. -/
structure AttrEntry where
  key : String
  value : String
  deriving DecidableEq, Repr

/-- A cell of the output frame `new_df` (and of a converted JSON row):
Python `None`, a string constant, a value copied from `df`, the
`Attributes` list, or a pandas `Series`/`DataFrame` object (the shape
the JSON conversion guards against at lines 147-148). -/
inductive NCell where
  | null
  | str (s : String)
  | int (n : Int)
  | nan
  | attrsVal (l : List AttrEntry)
  | series
  deriving DecidableEq, Repr

/-- Injection of a `df` cell into `new_df`. -/
def cellToN : Cell → NCell
  | .str s => .str s
  | .int n => .int n
  | .na => .nan

/-- `pd.isna(v)` on a `new_df` cell: true exactly on `None` and `NaN`. -/
def isnaN : NCell → Bool
  | .null => true
  | .nan => true
  | _ => false

/-- `isinstance(v, pd.Series) or isinstance(v, pd.DataFrame)`. -/
def isSeriesLike : NCell → Bool
  | .series => true
  | _ => false

/-- Column assignment `frame[name] = v` on an ordered string-keyed
frame: replaces the column in place when `name` already exists,
otherwise appends it at the end (pandas column-assignment semantics).
Polymorphic so that the same operation describes whole-column
assignment and its effect on a single extracted row. -/
def setCol {α : Type} (frame : List (String × α)) (name : String) (v : α) :
    List (String × α) :=
  if frame.any (fun p => p.1 = name) then
    frame.map (fun p => if p.1 = name then (p.1, v) else p)
  else
    frame ++ [(name, v)]

/-- `frame.iloc[idx].to_dict()`: extract row `idx` of a column-ordered
frame (out-of-range positions read as `NaN`; never exercised on
well-formed frames). -/
def rowDict (frame : List (String × List NCell)) (idx : Nat) :
    List (String × NCell) :=
  frame.map (fun p => (p.1, p.2.getD idx .nan))

/-! ## The per-file mapping specification

`process_files` reads three things out of a validated `file_mapping`
dict: `file_mapping.get('data_source', 'unknown')`,
`file_mapping['columns'].items()` and (optionally)
`file_mapping['attributes'].items()`. -/

structure FileMapping where
  data_source : Option String
  columns : List (String × String)
  attributes : Option (List (String × String))

/-- The view of a validated mapping dict that the processing loop
uses.  (`validate_mapping_config` guarantees `columns` is a dict and
`attributes`, when present, is a dict.) -/
def toFileMapping (l : List (String × PyValue)) : FileMapping where
  data_source := (lookupPy l "data_source").map pyName
  columns :=
    match lookupPy l "columns" with
    | some (.dict cl) => cl.map (fun p => (p.1, pyName p.2))
    | _ => []
  attributes :=
    match lookupPy l "attributes" with
    | some (.dict al) => some (al.map (fun p => (p.1, pyName p.2)))
    | _ => none

/-! ## The normalization step (src/main.py lines 101-151) -/

/-- `new_df` right after the default columns are filled in
(lines 102-115).  `ts1`, `ts2`, `ts3` are the three separate
`pd.Timestamp.now().strftime(...)` calls. -/
def initialNewDf (fm : FileMapping) (filename ts1 ts2 ts3 : String)
    (n : Nat) : List (String × List NCell) :=
  [("DataSource", List.replicate n (NCell.str (fm.data_source.getD "unknown"))),
   ("SourceCreatedDate", List.replicate n (NCell.str ts1)),
   ("SourceModifiedDate", List.replicate n (NCell.str ts2)),
   ("SourceFile", List.replicate n (NCell.str filename)),
   ("BQInsertedDate", List.replicate n (NCell.str ts3)),
   ("Id", List.replicate n NCell.null),
   ("FirstName", List.replicate n NCell.null),
   ("LastName", List.replicate n NCell.null),
   ("Email", List.replicate n NCell.null),
   ("Mobile", List.replicate n NCell.null),
   ("PostCode", List.replicate n NCell.null)]

/-- One step of the column-mapping loop (lines 117-121): copy the
source column when present, otherwise record the warning. -/
def mapColStep (df : DataFrame) (filename : String)
    (acc : List (String × List NCell) × List String) (p : String × String) :
    List (String × List NCell) × List String :=
  match dfGet df p.1 with
  | some v => (setCol acc.1 p.2 (v.map cellToN), acc.2)
  | none => (acc.1, acc.2 ++ [s!"Warning: Column {p.1} not found in {filename}"])

/-- `row_attributes` for row `idx` (lines 127-135): one pass over
`file_mapping['attributes'].items()`, appending
`{'Key': attr_name, 'Value': str(value)}` whenever the source column
exists and `pd.notna(value)`. -/
def rowAttributes (df : DataFrame) (attrs : List (String × String))
    (idx : Nat) : List AttrEntry :=
  attrs.foldl
    (fun acc p =>
      match dfGet df p.1 with
      | some colv =>
        let value := colv.getD idx .na
        if notna value then acc ++ [⟨p.2, cellStr value⟩] else acc
      | none => acc)
    []

/-- `attributes_list` (lines 123-138). -/
def attributesList (df : DataFrame) (fm : FileMapping) :
    List (List AttrEntry) :=
  match fm.attributes with
  | some attrs => (List.range df.nrows).map (fun idx => rowAttributes df attrs idx)
  | none => (List.range df.nrows).map (fun _ => [])

/-- The scalar-null normalization applied to entry `key` of a row dict
(lines 145-150): outside `BQInsertedDate`, `SourceFile` and
`Attributes`, Series/DataFrame values and `pd.isna` values become
`None`. -/
def normalizeJsonCell (key : String) (v : NCell) : NCell :=
  if key = "BQInsertedDate" || key = "SourceFile" || key = "Attributes" then v
  else if isSeriesLike v then .null
  else if isnaN v then .null
  else v

/-- The whole normalization step: builds `new_df` (defaults, mapped
columns, `Attributes`), converts it to `json_rows`, and collects the
missing-column warnings.  Returns `(json_rows, warnings)`. -/
def normalize (df : DataFrame) (fm : FileMapping)
    (filename ts1 ts2 ts3 : String) :
    List (List (String × NCell)) × List String :=
  let start := initialNewDf fm filename ts1 ts2 ts3 df.nrows
  let folded := fm.columns.foldl (mapColStep df filename) (start, [])
  let ndf := setCol folded.1 "Attributes" ((attributesList df fm).map NCell.attrsVal)
  let json_rows := (List.range df.nrows).map
    (fun idx => (rowDict ndf idx).map (fun p => (p.1, normalizeJsonCell p.1 p.2)))
  (json_rows, folded.2)

/-! ## Row-level description of normalization

`recordSpec` computes the record of one row directly, row-major: start
from the default field values, apply each column-mapping entry to this
row's cell, set this row's `Attributes`, then normalize each scalar
field.  The index-preservation theorem states that `normalize` equals
`recordSpec` mapped over the row indices in order. -/

/-- The default fields of any record, in `new_df` column order. -/
def initialRecord (fm : FileMapping) (filename ts1 ts2 ts3 : String) :
    List (String × NCell) :=
  [("DataSource", NCell.str (fm.data_source.getD "unknown")),
   ("SourceCreatedDate", NCell.str ts1),
   ("SourceModifiedDate", NCell.str ts2),
   ("SourceFile", NCell.str filename),
   ("BQInsertedDate", NCell.str ts3),
   ("Id", NCell.null),
   ("FirstName", NCell.null),
   ("LastName", NCell.null),
   ("Email", NCell.null),
   ("Mobile", NCell.null),
   ("PostCode", NCell.null)]

/-- The record produced for row `i`, computed row-by-row. -/
def recordSpec (df : DataFrame) (fm : FileMapping)
    (filename ts1 ts2 ts3 : String) (i : Nat) : List (String × NCell) :=
  let base := initialRecord fm filename ts1 ts2 ts3
  let afterCols := fm.columns.foldl
    (fun acc p =>
      match dfGet df p.1 with
      | some v => setCol acc p.2 (cellToN (v.getD i .na))
      | none => acc)
    base
  let withAttrs := setCol afterCols "Attributes"
    (NCell.attrsVal (match fm.attributes with
      | some attrs => rowAttributes df attrs i
      | none => []))
  withAttrs.map (fun p => (p.1, normalizeJsonCell p.1 p.2))

/-! ## Per-file orchestration (src/main.py lines 63-172)

One `stats[filename]` entry.  Status values are the literal strings the
program stores. -/

structure FileStats where
  total_rows : Nat
  processed_rows : Nat
  failed_rows : Nat
  status : String
  error_message : Option String
  start_time : Option String
  end_time : Option String
  deriving DecidableEq, Repr

/-- The external effects of processing one file: the outcome of
`pd.read_excel` / `pd.read_csv` on its content, and the outcome of the
BigQuery load job (`client.load_table_from_json` + `job.result()`).
Errors carry `str(exception)`. -/
structure FileOracle where
  parse : Except String DataFrame
  sink : Except String Unit

/-- The wall-clock samples taken while processing one file:
`datetime.now()` at entry, the three `pd.Timestamp.now()` calls inside
normalization, and `datetime.now()` in the `finally` block.  The source
samples the clock independently at each site. -/
structure Times where
  start : String
  t1 : String
  t2 : String
  t3 : String
  fin : String

/-- The `stats[filename]` entry as first filled in at lines 66-74. -/
def initStats (tms : Times) : FileStats where
  total_rows := 0
  processed_rows := 0
  failed_rows := 0
  status := "not_processed"
  error_message := none
  start_time := some tms.start
  end_time := none

/-- The body of the `for filename in os.listdir(directory)` loop for a
single file (lines 63-170), specialized to a mapping document whose top
level is a dict (the documented shape; `processStep` below gives the
body over an arbitrary loaded document): the three guard exits
(`continue` before the `try`, so the `finally` never runs and
`end_time` stays `None`), then the `try`/`except`/`finally` around
parse, normalize and load. -/
def processOneFile (filename : String)
    (mappings : List (String × PyValue)) (orc : FileOracle) (tms : Times) :
    FileStats :=
  let st0 := initStats tms
  if !(strEndsWith filename ".xlsx" || strEndsWith filename ".csv") then
    { st0 with status := "skipped",
               error_message := some "Not a supported file type" }
  else
    match lookupPy mappings filename with
    | none =>
      { st0 with status := "skipped",
                 error_message := some "No mapping configuration found" }
    | some file_mapping =>
      if !validate_mapping_config file_mapping filename then
        { st0 with status := "failed",
                   error_message := some "Invalid mapping configuration" }
      else
        let tried :=
          match orc.parse with
          | .error e => { st0 with status := "failed", error_message := some e }
          | .ok df =>
            let st1 := { st0 with total_rows := df.nrows }
            let fm := toFileMapping (match file_mapping with
              | .dict l => l
              | _ => [])
            let json_rows := (normalize df fm filename tms.t1 tms.t2 tms.t3).1
            match orc.sink with
            | .error e => { st1 with status := "failed", error_message := some e }
            | .ok _ =>
              { st1 with status := "success", processed_rows := json_rows.length }
        { tried with end_time := some tms.fin }

/-- Field access in a string-keyed record (first match). -/
def lookupStr {α : Type} : List (String × α) → String → Option α
  | [], _ => none
  | p :: rest, k => if p.1 = k then some p.2 else lookupStr rest k

theorem optMap_cellToN (o : Option Cell) :
    (o.map cellToN).getD .nan = cellToN (o.getD .na) := by
  cases o <;> rfl

theorem getD_map_cellToN (v : List Cell) (i : Nat) :
    (v.map cellToN).getD i .nan = cellToN (v.getD i .na) := by
  simp only [List.getD_eq_getElem?_getD, List.getElem?_map]
  cases v[i]? <;> simp [cellToN]

theorem getD_replicate {α : Type} (a d : α) {n i : Nat} (h : i < n) :
    (List.replicate n a).getD i d = a := by
  simp [List.getD_eq_getElem?_getD, List.getElem?_replicate, h]

theorem rowDict_setCol (frame : List (String × List NCell)) (name : String)
    (col : List NCell) (i : Nat) :
    rowDict (setCol frame name col) i =
      setCol (rowDict frame i) name (col.getD i .nan) := by
  unfold setCol rowDict
  have hany : (frame.map (fun p => (p.1, p.2.getD i .nan))).any (fun p => p.1 = name)
      = frame.any (fun p => p.1 = name) := by
    induction frame with
    | nil => rfl
    | cons a l ih =>
      simp only [List.getD_eq_getElem?_getD] at ih
      simp [List.any_cons, ih]
  rw [hany]
  by_cases h : frame.any (fun p => p.1 = name)
  · simp only [h, if_true, List.map_map]
    apply List.map_congr_left
    intro p _
    by_cases hp : p.1 = name <;> simp [hp, Function.comp]
  · simp only [h, if_false]
    simp

theorem foldl_mapColStep_fst (df : DataFrame) (filename : String)
    (cols : List (String × String))
    (start : List (String × List NCell) × List String) :
    (cols.foldl (mapColStep df filename) start).1 =
      cols.foldl
        (fun acc p =>
          match dfGet df p.1 with
          | some v => setCol acc p.2 (v.map cellToN)
          | none => acc)
        start.1 := by
  induction cols generalizing start with
  | nil => rfl
  | cons hd tl ih =>
    simp only [List.foldl_cons, mapColStep]
    cases hdf : dfGet df hd.1 <;> simp [hdf, ih]

theorem rowDict_foldl_cols (df : DataFrame) (cols : List (String × String))
    (start : List (String × List NCell)) (i : Nat) :
    rowDict
        (cols.foldl
          (fun acc p =>
            match dfGet df p.1 with
            | some v => setCol acc p.2 (v.map cellToN)
            | none => acc)
          start) i =
      cols.foldl
        (fun acc p =>
          match dfGet df p.1 with
          | some v => setCol acc p.2 (cellToN (v.getD i .na))
          | none => acc)
        (rowDict start i) := by
  induction cols generalizing start with
  | nil => rfl
  | cons hd tl ih =>
    simp only [List.foldl_cons]
    cases hdf : dfGet df hd.1
    · simp [hdf, ih]
    · simp [hdf, ih, rowDict_setCol, getD_map_cellToN, optMap_cellToN]

theorem rowDict_initialNewDf (fm : FileMapping) (filename ts1 ts2 ts3 : String)
    {n i : Nat} (h : i < n) :
    rowDict (initialNewDf fm filename ts1 ts2 ts3 n) i =
      initialRecord fm filename ts1 ts2 ts3 := by
  simp [rowDict, initialNewDf, initialRecord, List.getElem?_replicate, h]

theorem attributesList_getD (df : DataFrame) (fm : FileMapping) {i : Nat}
    (h : i < df.nrows) :
    ((attributesList df fm).map NCell.attrsVal).getD i .nan =
      NCell.attrsVal
        (match fm.attributes with
          | some attrs => rowAttributes df attrs i
          | none => []) := by
  unfold attributesList
  cases fm.attributes <;>
    simp [List.getD_eq_getElem?_getD, List.getElem?_map, List.getElem?_range, h]

/-- Row `i` of the converted output equals the row-major record. -/
theorem normalize_row_eq (df : DataFrame) (fm : FileMapping)
    (filename ts1 ts2 ts3 : String) :
    (normalize df fm filename ts1 ts2 ts3).1 =
      (List.range df.nrows).map (recordSpec df fm filename ts1 ts2 ts3) := by
  unfold normalize
  simp only []
  apply List.map_congr_left
  intro i hi
  have hin : i < df.nrows := List.mem_range.mp hi
  rw [foldl_mapColStep_fst, rowDict_setCol, attributesList_getD df fm hin,
    rowDict_foldl_cols, rowDict_initialNewDf fm filename ts1 ts2 ts3 hin]
  rfl

/-- C1: the normalization step inside `process_files` produces exactly
one output record per input row: the output sequence has as many
records as the dataset has rows, and record `i` is the row-major record
computed from input row `i` alone, so input row order is preserved end
to end. -/
theorem c1_normalize_index_preserving (df : DataFrame) (fm : FileMapping)
    (filename ts1 ts2 ts3 : String) :
    (normalize df fm filename ts1 ts2 ts3).1.length = df.nrows ∧
      (normalize df fm filename ts1 ts2 ts3).1 =
        (List.range df.nrows).map (recordSpec df fm filename ts1 ts2 ts3) := by
  refine ⟨?_, normalize_row_eq df fm filename ts1 ts2 ts3⟩
  rw [normalize_row_eq]
  simp

/-! ## C3 -/

/-- C3: `validate_mapping_config` is total (the embedding is a total
function, mirroring that no branch of the source can raise), returns
the same result for every filename argument, and returns `true` exactly
when the value is a mapping whose `columns` entry exists and is a
mapping and whose `attributes` entry, when present, is a mapping — in
particular an empty `columns` mapping validates. -/
theorem c3_validate_characterization (m : PyValue) (fn fn2 : String) :
    validate_mapping_config m fn = validate_mapping_config m fn2 ∧
    (validate_mapping_config m fn = true ↔
      ∃ l, m = PyValue.dict l ∧
        (∃ c, lookupPy l "columns" = some c ∧ isDict c = true) ∧
        (lookupPy l "attributes" = none ∨
          ∃ a, lookupPy l "attributes" = some a ∧ isDict a = true)) ∧
    validate_mapping_config (PyValue.dict [("columns", PyValue.dict [])]) fn
      = true := by
  refine ⟨rfl, ?_, rfl⟩
  constructor
  · intro h
    cases m with
    | dict l =>
      refine ⟨l, rfl, ?_⟩
      cases hc : lookupPy l "columns" with
      | none => simp [validate_mapping_config, hc] at h
      | some c =>
        cases hcd : isDict c
        · simp [validate_mapping_config, hc, hcd] at h
        · refine ⟨⟨c, rfl, hcd⟩, ?_⟩
          cases ha : lookupPy l "attributes" with
          | none => exact Or.inl rfl
          | some a =>
            cases had : isDict a
            · simp [validate_mapping_config, hc, hcd, ha, had] at h
            · exact Or.inr ⟨a, rfl, had⟩
    | null => simp [validate_mapping_config] at h
    | bool b => simp [validate_mapping_config] at h
    | int n => simp [validate_mapping_config] at h
    | str s => simp [validate_mapping_config] at h
    | list l => simp [validate_mapping_config] at h
  · rintro ⟨l, rfl, ⟨c, hc, hcd⟩, hattr⟩
    rcases hattr with ha | ⟨a, ha, had⟩
    · simp [validate_mapping_config, hc, hcd, ha]
    · simp [validate_mapping_config, hc, hcd, ha, had]

/-- Instantiation of C3 at concrete inputs: an empty `columns` mapping
validates under any filename, a `columns` list is rejected, and the
filename does not change the verdict. -/
theorem c3_validate_witness :
    validate_mapping_config (PyValue.dict [("columns", PyValue.dict [])])
        "a.csv" = true ∧
    validate_mapping_config (PyValue.dict [("columns", PyValue.list [])])
        "d.csv" = false ∧
    validate_mapping_config (PyValue.list []) "a.csv"
      = validate_mapping_config (PyValue.list []) "zzz" := by
  refine ⟨(c3_validate_characterization
    (PyValue.dict [("columns", PyValue.dict [])]) "a.csv" "x").2.2, ?_, ?_⟩
  · have h := (c3_validate_characterization
      (PyValue.dict [("columns", PyValue.list [])]) "d.csv" "x").2.1
    cases hv : validate_mapping_config
        (PyValue.dict [("columns", PyValue.list [])]) "d.csv"
    · rfl
    · rcases h.mp hv with ⟨l, hl, ⟨c, hc, hcd⟩, _⟩
      cases hl
      simp [lookupPy] at hc
      rw [← hc] at hcd
      simp [isDict] at hcd
  · exact (c3_validate_characterization (PyValue.list []) "a.csv" "zzz").1

/-! ## Record-lookup lemmas -/

theorem lookupStr_append {α : Type} (l1 l2 : List (String × α)) (k : String) :
    lookupStr (l1 ++ l2) k =
      match lookupStr l1 k with
      | some v => some v
      | none => lookupStr l2 k := by
  induction l1 with
  | nil => rfl
  | cons p rest ih =>
    by_cases hp : p.1 = k <;> simp [lookupStr, hp, ih]

theorem lookupStr_of_any_false {α : Type} :
    ∀ (l : List (String × α)) (k : String),
      l.any (fun p => p.1 = k) = false → lookupStr l k = none
  | [], _, _ => rfl
  | (a, b) :: rest, k, h => by
    simp only [List.any_cons, Bool.or_eq_false_iff,
      decide_eq_false_iff_not] at h
    simp only [lookupStr, if_neg h.1]
    exact lookupStr_of_any_false rest k h.2

theorem lookupStr_map_update {α : Type} (l : List (String × α))
    (k : String) (v : α) (hany : l.any (fun p => p.1 = k) = true) :
    lookupStr (l.map (fun p => if p.1 = k then (p.1, v) else p)) k
      = some v := by
  induction l with
  | nil => simp at hany
  | cons p rest ih =>
    obtain ⟨a, b⟩ := p
    by_cases ha : a = k
    · simp [lookupStr, ha]
    · have hrest : rest.any (fun p => p.1 = k) = true := by
        simpa [ha] using hany
      simp only [List.map_cons]
      simp only [lookupStr, if_neg ha]
      exact ih hrest

theorem lookupStr_setCol_self {α : Type} (l : List (String × α)) (k : String)
    (v : α) : lookupStr (setCol l k v) k = some v := by
  unfold setCol
  by_cases h : l.any (fun p => p.1 = k)
  · simp only [h, if_true]
    exact lookupStr_map_update l k v h
  · simp only [h, Bool.false_eq_true, if_false]
    have hfalse : l.any (fun p => p.1 = k) = false := by
      cases hb : l.any (fun p => p.1 = k)
      · rfl
      · exact absurd hb h
    rw [lookupStr_append, lookupStr_of_any_false l k hfalse]
    simp [lookupStr]

theorem lookupStr_map_val {α β : Type} (l : List (String × α))
    (g : String → α → β) (k : String) :
    lookupStr (l.map (fun p => (p.1, g p.1 p.2))) k =
      (lookupStr l k).map (g k) := by
  induction l with
  | nil => rfl
  | cons p rest ih =>
    by_cases hp : p.1 = k
    · subst hp; simp [lookupStr, ih]
    · simp [lookupStr, hp, ih]

theorem range_map_getD {α : Type} (f : Nat → α) (d : α) {n i : Nat}
    (h : i < n) : ((List.range n).map f).getD i d = f i := by
  simp [List.getD_eq_getElem?_getD, List.getElem?_map, List.getElem?_range, h]

/-! ## The attribute-extraction contract -/

/-- The attribute entry one `(sourceCol, attrName)` pair contributes
for row `i`, if any: present exactly when the source column exists in
the dataset and the row's value is not missing (`pd.notna`). -/
def attrEntrySpec (df : DataFrame) (i : Nat) (p : String × String) :
    Option AttrEntry :=
  match dfGet df p.1 with
  | some colv =>
    let value := colv.getD i .na
    if notna value then some ⟨p.2, cellStr value⟩ else none
  | none => none

/-- Row `i`'s attribute list, as a filter of the `attributes` mapping
in its iteration order. -/
def attrSpec (df : DataFrame) (attrs : List (String × String)) (i : Nat) :
    List AttrEntry :=
  attrs.filterMap (attrEntrySpec df i)

theorem rowAttributes_go (df : DataFrame) (i : Nat)
    (attrs : List (String × String)) (acc : List AttrEntry) :
    attrs.foldl
        (fun acc p =>
          match dfGet df p.1 with
          | some colv =>
            let value := colv.getD i .na
            if notna value then acc ++ [⟨p.2, cellStr value⟩] else acc
          | none => acc)
        acc
      = acc ++ attrs.filterMap (attrEntrySpec df i) := by
  induction attrs generalizing acc with
  | nil => simp
  | cons hd tl ih =>
    rw [List.foldl_cons, List.filterMap_cons]
    cases hcol : dfGet df hd.1 with
    | none =>
      simp only [attrEntrySpec, hcol]
      exact ih acc
    | some colv =>
      by_cases hna : notna (colv.getD i Cell.na) = true
      · simp only [attrEntrySpec, hcol, if_pos hna]
        rw [ih]
        simp
      · simp only [attrEntrySpec, hcol, if_neg hna]
        exact ih acc

theorem rowAttributes_eq (df : DataFrame) (attrs : List (String × String))
    (i : Nat) : rowAttributes df attrs i = attrSpec df attrs i := by
  unfold rowAttributes attrSpec
  simpa using rowAttributes_go df i attrs []

/-- The `Attributes` field of emitted record `i`. -/
theorem record_attributes_field (df : DataFrame) (fm : FileMapping)
    (filename ts1 ts2 ts3 : String) {i : Nat} (hi : i < df.nrows) :
    lookupStr ((normalize df fm filename ts1 ts2 ts3).1.getD i [])
        "Attributes"
      = some (NCell.attrsVal
          (match fm.attributes with
            | some attrs => rowAttributes df attrs i
            | none => [])) := by
  rw [normalize_row_eq, range_map_getD _ _ hi]
  unfold recordSpec
  rw [lookupStr_map_val _ (fun k v => normalizeJsonCell k v) "Attributes",
    lookupStr_setCol_self]
  simp [normalizeJsonCell]

/-! ## C2 -/

/-- C2 as stated is false on the code: "non-blank (not null/NaN/empty)"
excludes the empty string, but the source's test is `pd.notna(value)`,
which is true of `""`.  For a one-row dataset whose column `x` holds
the empty string and an attributes mapping `{x: X}`, the emitted
record's Attributes sequence does contain the key `X` (with value
`""`), where the claim requires it to be absent. -/
theorem c2_counterexample :
    lookupStr
        ((normalize ⟨[("x", [Cell.str ""])], 1⟩
            ⟨none, [], some [("x", "X")]⟩ "e.csv" "T1" "T2" "T3").1.getD 0 [])
        "Attributes"
      = some (NCell.attrsVal [⟨"X", "" ⟩]) := by
  decide

/-- C2 (amended): an Attributes entry `{Key: attrName, Value:
stringified(value)}` appears for `(sourceCol, attrName)` exactly when
`sourceCol` exists in the dataset's column set and row `i`'s value for
it is non-missing in the `pd.notna` sense — `None`/`NaN` are excluded
but the empty string is not, so a blank-but-present string yields an
entry whose Value is `""`.  Entries appear in the iteration order of
the `attributes` mapping, and when the mapping has no `attributes` key
every row's Attributes sequence is empty. -/
theorem c2_attributes_characterization (df : DataFrame) (fm : FileMapping)
    (filename ts1 ts2 ts3 : String) {i : Nat} (hi : i < df.nrows) :
    (∀ attrs, fm.attributes = some attrs →
      lookupStr ((normalize df fm filename ts1 ts2 ts3).1.getD i [])
          "Attributes" = some (NCell.attrsVal (attrSpec df attrs i)) ∧
      ∀ e : AttrEntry, e ∈ attrSpec df attrs i ↔
        ∃ sc an, (sc, an) ∈ attrs ∧
          ∃ colv, dfGet df sc = some colv ∧
            notna (colv.getD i .na) = true ∧
            e = ⟨an, cellStr (colv.getD i .na)⟩) ∧
    (fm.attributes = none →
      lookupStr ((normalize df fm filename ts1 ts2 ts3).1.getD i [])
          "Attributes" = some (NCell.attrsVal [])) := by
  constructor
  · intro attrs hattrs
    constructor
    · rw [record_attributes_field df fm filename ts1 ts2 ts3 hi, hattrs]
      exact congrArg (fun l => some (NCell.attrsVal l))
        (rowAttributes_eq df attrs i)
    · intro e
      unfold attrSpec
      rw [List.mem_filterMap]
      constructor
      · rintro ⟨⟨sc, an⟩, hmem, hf⟩
        refine ⟨sc, an, hmem, ?_⟩
        cases hcol : dfGet df sc with
        | none => simp [attrEntrySpec, hcol] at hf
        | some colv =>
          simp only [attrEntrySpec, hcol] at hf
          by_cases hna : notna (colv.getD i Cell.na) = true
          · rw [if_pos hna] at hf
            exact ⟨colv, rfl, hna, (Option.some_inj.mp hf).symm⟩
          · rw [if_neg hna] at hf
            cases hf
      · rintro ⟨sc, an, hmem, colv, hcol, hna, rfl⟩
        refine ⟨(sc, an), hmem, ?_⟩
        simp only [attrEntrySpec, hcol]
        rw [if_pos hna]
  · intro hattrs
    rw [record_attributes_field df fm filename ts1 ts2 ts3 hi, hattrs]

/-- Instantiation of the amended C2 at a concrete input: a one-row
dataset with `x = "v"` and `y` missing, attributes `{x: X, y: Y}`,
yields exactly the entry `{Key: X, Value: "v"}`. -/
theorem c2_attributes_witness :
    lookupStr
        ((normalize ⟨[("x", [Cell.str "v"]), ("y", [Cell.na])], 1⟩
            ⟨none, [], some [("x", "X"), ("y", "Y")]⟩
            "f.csv" "T1" "T2" "T3").1.getD 0 [])
        "Attributes"
      = some (NCell.attrsVal [⟨"X", "v"⟩]) := by
  have h := (@c2_attributes_characterization
      ⟨[("x", [Cell.str "v"]), ("y", [Cell.na])], 1⟩
      ⟨none, [], some [("x", "X"), ("y", "Y")]⟩
      "f.csv" "T1" "T2" "T3" 0 (by decide)).1 [("x", "X"), ("y", "Y")] rfl
  rw [h.1]
  decide

/-! ## C6 -/

theorem normalizeJsonCell_not_exempt (k : String) (v : NCell)
    (h1 : k ≠ "BQInsertedDate") (h2 : k ≠ "SourceFile")
    (h3 : k ≠ "Attributes") :
    normalizeJsonCell k v ≠ NCell.nan ∧
    normalizeJsonCell k v ≠ NCell.series ∧
    ((isnaN v = true ∨ isSeriesLike v = true) →
      normalizeJsonCell k v = NCell.null) := by
  cases v <;> simp [normalizeJsonCell, isnaN, isSeriesLike, h1, h2, h3]

/-- C6 fails as stated: "blank" values are not normalized to null.  A
one-row dataset whose column `e` holds the empty string, mapped to
`Email`, emits a record whose `Email` field is the empty string — a
blank value handed to the sink un-normalized (the code's test is
`pd.isna`, which is false of `""`). -/
theorem c6_counterexample :
    lookupStr
        ((normalize ⟨[("e", [Cell.str ""])], 1⟩
            ⟨none, [("e", "Email")], none⟩ "e.csv" "T1" "T2" "T3").1.getD 0 [])
        "Email"
      = some (NCell.str "") ∧ NCell.str "" ≠ NCell.null := by
  constructor
  · decide
  · decide

/-- C6 (amended): for every output field except `BQInsertedDate`,
`SourceFile` and `Attributes`, a missing/NaN value (`pd.isna`) or a
value that is a pandas Series/DataFrame (an ambiguously collapsed
vector-valued assignment) is normalized to null before the record is
handed to the sink — consequently no emitted non-exempt field is `NaN`
or Series-valued.  Blank-but-present strings (e.g. `""`) are not
`pd.isna` and pass through unchanged. -/
theorem c6_null_normalization (df : DataFrame) (fm : FileMapping)
    (filename ts1 ts2 ts3 : String) :
    (∀ r ∈ (normalize df fm filename ts1 ts2 ts3).1, ∀ k v, (k, v) ∈ r →
      k ≠ "BQInsertedDate" → k ≠ "SourceFile" → k ≠ "Attributes" →
      v ≠ NCell.nan ∧ v ≠ NCell.series) ∧
    (∀ k v, k ≠ "BQInsertedDate" → k ≠ "SourceFile" → k ≠ "Attributes" →
      (isnaN v = true ∨ isSeriesLike v = true) →
      normalizeJsonCell k v = NCell.null) := by
  constructor
  · intro r hr k v hkv h1 h2 h3
    unfold normalize at hr
    simp only [List.mem_map] at hr
    obtain ⟨idx, _, rfl⟩ := hr
    simp only [List.mem_map] at hkv
    obtain ⟨⟨k', v'⟩, _, heq⟩ := hkv
    obtain ⟨hk, hv⟩ := Prod.mk.injEq .. ▸ heq
    subst hk
    rw [← hv]
    exact ⟨(normalizeJsonCell_not_exempt k' v' h1 h2 h3).1,
      (normalizeJsonCell_not_exempt k' v' h1 h2 h3).2.1⟩
  · intro k v h1 h2 h3 hv
    exact (normalizeJsonCell_not_exempt k v h1 h2 h3).2.2 hv

/-- Instantiation of the amended C6 at concrete inputs: a missing value
mapped to `Email` is emitted as null, a Series value under `Mobile`
normalizes to null, and the emitted `Email` field of a record built
from a missing cell is neither `NaN` nor a Series. -/
theorem c6_null_normalization_witness :
    normalizeJsonCell "Email" NCell.nan = NCell.null ∧
    normalizeJsonCell "Mobile" NCell.series = NCell.null ∧
    (NCell.null ≠ NCell.nan ∧ NCell.null ≠ NCell.series) := by
  refine ⟨?_, ?_, ?_⟩
  · exact (c6_null_normalization ⟨[], 0⟩ ⟨none, [], none⟩ "f" "T" "T" "T").2
      "Email" NCell.nan (by decide) (by decide) (by decide) (Or.inl rfl)
  · exact (c6_null_normalization ⟨[], 0⟩ ⟨none, [], none⟩ "f" "T" "T" "T").2
      "Mobile" NCell.series (by decide) (by decide) (by decide) (Or.inr rfl)
  · exact (c6_null_normalization ⟨[("e", [Cell.na])], 1⟩
      ⟨none, [("e", "Email")], none⟩ "e.csv" "T1" "T2" "T3").1
      ((normalize ⟨[("e", [Cell.na])], 1⟩
          ⟨none, [("e", "Email")], none⟩ "e.csv" "T1" "T2" "T3").1.getD 0 [])
      (by decide) "Email" NCell.null (by decide)
      (by decide) (by decide) (by decide)

/-! ## C7 -/

/-- C4: the guard chain of `process_files`.  A filename not ending in
`.xlsx` or `.csv` is skipped as unsupported; a supported filename with
no mapping entry is skipped as unmapped; a present mapping that fails
validation marks the file failed with "Invalid mapping configuration".
In all three cases the result is a constant record independent of the
parse/sink oracle — no parse is attempted — and `total_rows`,
`processed_rows` stay 0. -/
theorem c4_guard_chain (fn : String) (mappings : List (String × PyValue))
    (orc : FileOracle) (tms : Times) :
    (strEndsWith fn ".xlsx" = false → strEndsWith fn ".csv" = false →
      processOneFile fn mappings orc tms =
        { initStats tms with
          status := "skipped",
          error_message := some "Not a supported file type" }) ∧
    ((strEndsWith fn ".xlsx" = true ∨ strEndsWith fn ".csv" = true) →
      lookupPy mappings fn = none →
      processOneFile fn mappings orc tms =
        { initStats tms with
          status := "skipped",
          error_message := some "No mapping configuration found" }) ∧
    (∀ fmv : PyValue,
      (strEndsWith fn ".xlsx" = true ∨ strEndsWith fn ".csv" = true) →
      lookupPy mappings fn = some fmv →
      validate_mapping_config fmv fn = false →
      processOneFile fn mappings orc tms =
        { initStats tms with
          status := "failed",
          error_message := some "Invalid mapping configuration" }) := by
  refine ⟨?_, ?_, ?_⟩
  · intro h1 h2
    unfold processOneFile
    simp [h1, h2]
  · intro hext hmap
    have hcond : (strEndsWith fn ".xlsx" || strEndsWith fn ".csv") = true := by
      rcases hext with h | h <;> simp [h]
    unfold processOneFile
    rw [hcond]
    simp [hmap]
  · intro fmv hext hmap hval
    have hcond : (strEndsWith fn ".xlsx" || strEndsWith fn ".csv") = true := by
      rcases hext with h | h <;> simp [h]
    unfold processOneFile
    rw [hcond]
    simp [hmap, hval]

/-- Instantiation of C4 at the spec's Scenarios B, C and D: `b.txt` is
skipped as unsupported, `c.csv` (absent from the mapping document) is
skipped as unmapped, and `d.csv` with a list-valued `columns` fails
validation. -/
theorem c4_guard_chain_witness :
    processOneFile "b.txt" [] ⟨.ok ⟨[], 0⟩, .ok ()⟩ ⟨"s", "1", "2", "3", "e"⟩
      = { (initStats ⟨"s", "1", "2", "3", "e"⟩) with
          status := "skipped",
          error_message := some "Not a supported file type" } ∧
    processOneFile "c.csv" [] ⟨.ok ⟨[], 0⟩, .ok ()⟩ ⟨"s", "1", "2", "3", "e"⟩
      = { (initStats ⟨"s", "1", "2", "3", "e"⟩) with
          status := "skipped",
          error_message := some "No mapping configuration found" } ∧
    processOneFile "d.csv"
        [("d.csv", PyValue.dict [("columns", PyValue.list [])])]
        ⟨.ok ⟨[], 0⟩, .ok ()⟩ ⟨"s", "1", "2", "3", "e"⟩
      = { (initStats ⟨"s", "1", "2", "3", "e"⟩) with
          status := "failed",
          error_message := some "Invalid mapping configuration" } := by
  refine ⟨?_, ?_, ?_⟩
  · exact (c4_guard_chain "b.txt" [] ⟨.ok ⟨[], 0⟩, .ok ()⟩
      ⟨"s", "1", "2", "3", "e"⟩).1 (by decide) (by decide)
  · exact (c4_guard_chain "c.csv" [] ⟨.ok ⟨[], 0⟩, .ok ()⟩
      ⟨"s", "1", "2", "3", "e"⟩).2.1 (Or.inr (by decide)) rfl
  · exact (c4_guard_chain "d.csv"
      [("d.csv", PyValue.dict [("columns", PyValue.list [])])]
      ⟨.ok ⟨[], 0⟩, .ok ()⟩ ⟨"s", "1", "2", "3", "e"⟩).2.2
      (PyValue.dict [("columns", PyValue.list [])])
      (Or.inr (by decide)) rfl (by rfl)

/-! ## C5 -/

/-- C5 fails as stated: the three guard exits `continue` before the
`try`, so the `finally` that stamps `end_time` never runs.  A `b.txt`
file (unsupported type) and a `d.csv` file with an invalid mapping both
finish with `end_time` still `None`. -/
theorem c5_counterexample :
    (processOneFile "b.txt" [] ⟨.ok ⟨[], 0⟩, .ok ()⟩
        ⟨"s", "1", "2", "3", "e"⟩).status = "skipped" ∧
    (processOneFile "b.txt" [] ⟨.ok ⟨[], 0⟩, .ok ()⟩
        ⟨"s", "1", "2", "3", "e"⟩).end_time = none ∧
    (processOneFile "d.csv"
        [("d.csv", PyValue.dict [("columns", PyValue.list [])])]
        ⟨.ok ⟨[], 0⟩, .ok ()⟩ ⟨"s", "1", "2", "3", "e"⟩).status = "failed" ∧
    (processOneFile "d.csv"
        [("d.csv", PyValue.dict [("columns", PyValue.list [])])]
        ⟨.ok ⟨[], 0⟩, .ok ()⟩ ⟨"s", "1", "2", "3", "e"⟩).end_time = none := by
  refine ⟨?_, ?_, ?_, ?_⟩ <;> decide

/-- C5 (amended): `start_time` is always set, but `end_time` is set
exactly for the files that pass all three guards (supported extension,
mapping entry present, mapping valid) and reach the parse/load phase,
whatever its outcome; files skipped or failed by the guards keep
`end_time = None`. -/
theorem c5_time_stamps (fn : String) (mappings : List (String × PyValue))
    (orc : FileOracle) (tms : Times) :
    (processOneFile fn mappings orc tms).start_time = some tms.start ∧
    ((processOneFile fn mappings orc tms).end_time = some tms.fin ↔
      (strEndsWith fn ".xlsx" = true ∨ strEndsWith fn ".csv" = true) ∧
      ∃ fmv, lookupPy mappings fn = some fmv ∧
        validate_mapping_config fmv fn = true) ∧
    ((processOneFile fn mappings orc tms).end_time = none ∨
      (processOneFile fn mappings orc tms).end_time = some tms.fin) := by
  unfold processOneFile
  cases h1 : (strEndsWith fn ".xlsx" || strEndsWith fn ".csv") with
  | false =>
    have h1' := Bool.or_eq_false_iff.mp h1
    simp only [h1, Bool.not_false, if_true]
    refine ⟨rfl, ?_, Or.inl rfl⟩
    simp [initStats, h1'.1, h1'.2]
  | true =>
    have hor : strEndsWith fn ".xlsx" = true ∨ strEndsWith fn ".csv" = true := by
      cases hxa : strEndsWith fn ".xlsx"
      · cases hxb : strEndsWith fn ".csv"
        · rw [hxa, hxb] at h1
          cases h1
        · exact Or.inr rfl
      · exact Or.inl rfl
    simp only [h1, Bool.not_true, Bool.false_eq_true, if_false]
    cases hmap : lookupPy mappings fn with
    | none =>
      refine ⟨rfl, ?_, Or.inl rfl⟩
      simp [initStats]
    | some fmv =>
      cases hval : validate_mapping_config fmv fn with
      | false =>
        simp only [hval, Bool.not_false, if_true]
        refine ⟨rfl, ?_, Or.inl rfl⟩
        simp [initStats, hval]
      | true =>
        simp only [hval, Bool.not_true, Bool.false_eq_true, if_false]
        cases hparse : orc.parse with
        | error e =>
          refine ⟨rfl, ?_, Or.inr (by trivial)⟩
          simp only [true_iff, iff_true]
          exact ⟨hor, fmv, rfl, hval⟩
        | ok df =>
          cases hsink : orc.sink with
          | error e =>
            refine ⟨rfl, ?_, Or.inr (by trivial)⟩
            simp only [true_iff, iff_true]
            exact ⟨hor, fmv, rfl, hval⟩
          | ok u =>
            refine ⟨rfl, ?_, Or.inr (by trivial)⟩
            simp only [true_iff, iff_true]
            exact ⟨hor, fmv, rfl, hval⟩

/-- Instantiation of the amended C5 at concrete inputs: a file that
passes the guards gets `end_time` stamped even when the sink fails,
and a skipped file keeps `end_time = None`. -/
theorem c5_time_stamps_witness :
    (processOneFile "a.csv" [("a.csv", PyValue.dict [("columns",
        PyValue.dict [])])] ⟨.ok ⟨[], 0⟩, .error "sink down"⟩
        ⟨"s", "1", "2", "3", "e"⟩).end_time = some "e" ∧
    (processOneFile "b.txt" [] ⟨.ok ⟨[], 0⟩, .ok ()⟩
        ⟨"s", "1", "2", "3", "e"⟩).start_time = some "s" := by
  constructor
  · exact (c5_time_stamps "a.csv" [("a.csv", PyValue.dict [("columns",
      PyValue.dict [])])] ⟨.ok ⟨[], 0⟩, .error "sink down"⟩
      ⟨"s", "1", "2", "3", "e"⟩).2.1.mpr
      ⟨Or.inr (by decide), PyValue.dict [("columns", PyValue.dict [])],
        rfl, by rfl⟩
  · exact (c5_time_stamps "b.txt" [] ⟨.ok ⟨[], 0⟩, .ok ()⟩
      ⟨"s", "1", "2", "3", "e"⟩).1

/-! ## C10 -/

/-- C10: the extension check `filename.endswith(('.xlsx', '.csv'))` is
case-sensitive.  A filename that ends in `.xlsx`/`.csv` only after
lower-casing (e.g. `DATA.CSV`) is skipped as "Not a supported file
type" even when the mapping document has an entry for it. -/
theorem c10_case_sensitive_extension (fn : String)
    (mappings : List (String × PyValue)) (fmv : PyValue) (orc : FileOracle)
    (tms : Times)
    (hlower : strEndsWith (lowerStr fn) ".xlsx" = true ∨
      strEndsWith (lowerStr fn) ".csv" = true)
    (h1 : strEndsWith fn ".xlsx" = false) (h2 : strEndsWith fn ".csv" = false)
    (hmap : lookupPy mappings fn = some fmv) :
    processOneFile fn mappings orc tms =
      { initStats tms with
          status := "skipped",
          error_message := some "Not a supported file type" } := by
  unfold processOneFile
  simp [h1, h2]

/-- Instantiation of C10 at `DATA.CSV` with a mapping entry present:
still skipped as unsupported. -/
theorem c10_case_sensitive_extension_witness :
    processOneFile "DATA.CSV"
        [("DATA.CSV", PyValue.dict [("columns", PyValue.dict [])])]
        ⟨.ok ⟨[], 0⟩, .ok ()⟩ ⟨"s", "1", "2", "3", "e"⟩
      = { (initStats ⟨"s", "1", "2", "3", "e"⟩) with
          status := "skipped",
          error_message := some "Not a supported file type" } :=
  c10_case_sensitive_extension "DATA.CSV"
    [("DATA.CSV", PyValue.dict [("columns", PyValue.dict [])])]
    (PyValue.dict [("columns", PyValue.dict [])])
    ⟨.ok ⟨[], 0⟩, .ok ()⟩ ⟨"s", "1", "2", "3", "e"⟩
    (Or.inr (by decide)) (by decide) (by decide) rfl

/-! ## C8 -/

/-- C9 fails as stated: the format-mismatch failure is not distinct
from a wrapped parse failure.  The `ValueError` raised for an
unrecognized suffix is caught by the same `except` clause and re-raised
as the same generic `Exception` with the same
"Error loading mapping file: " context, so a `.txt` mapping source and
a `.yaml` source whose parser happened to fail with the same detail
produce literally identical errors. -/
theorem c9_counterexample :
    load_column_mappings "mappings.txt" (.ok PyValue.null) (.ok PyValue.null)
      = .error ⟨"Exception",
          "Error loading mapping file: Mapping file must be either YAML or JSON"⟩ ∧
    load_column_mappings "mappings.yaml"
        (.error ⟨"ParserError", "Mapping file must be either YAML or JSON"⟩)
        (.ok PyValue.null)
      = .error ⟨"Exception",
          "Error loading mapping file: Mapping file must be either YAML or JSON"⟩ := by
  constructor
  · rfl
  · rfl

/-- C9 (amended): both loader failure modes raise the same generic
exception type, with message "Error loading mapping file: <detail>"
(capital E): for a filename whose suffix is none of `.yaml`, `.yml`,
`.json` the detail is "Mapping file must be either YAML or JSON" (the
internal `ValueError` is itself caught and wrapped, so the format
error is distinguished from a wrapped parse error only by its message
text, not by its type); for an unparsable document the detail is the
parser's error message. -/
theorem c9_loader_error_wrapping (f : String) (y j : Except PyExn PyValue)
    (d : PyExn) :
    (strEndsWith f ".yaml" = false → strEndsWith f ".yml" = false →
      strEndsWith f ".json" = false →
      load_column_mappings f y j = .error ⟨"Exception",
        "Error loading mapping file: Mapping file must be either YAML or JSON"⟩) ∧
    ((strEndsWith f ".yaml" = true ∨ strEndsWith f ".yml" = true) →
      y = .error d →
      load_column_mappings f y j =
        .error ⟨"Exception", "Error loading mapping file: " ++ d.msg⟩) ∧
    (strEndsWith f ".yaml" = false → strEndsWith f ".yml" = false →
      strEndsWith f ".json" = true → j = .error d →
      load_column_mappings f y j =
        .error ⟨"Exception", "Error loading mapping file: " ++ d.msg⟩) := by
  refine ⟨?_, ?_, ?_⟩
  · intro h1 h2 h3
    unfold load_column_mappings
    simp [h1, h2, h3]
  · intro hext hy
    have hcond : (strEndsWith f ".yaml" || strEndsWith f ".yml") = true := by
      rcases hext with h | h <;> simp [h]
    unfold load_column_mappings
    rw [hcond]
    simp [hy]
  · intro h1 h2 h3 hj
    unfold load_column_mappings
    simp [h1, h2, h3, hj]

/-- Instantiation of the amended C9 at concrete inputs: a `.cfg`
source, a `.yml` source with a YAML scanner error, and a `.json`
source with a JSON decode error. -/
theorem c9_loader_error_wrapping_witness :
    load_column_mappings "m.cfg" (.ok PyValue.null) (.ok PyValue.null)
      = .error ⟨"Exception",
          "Error loading mapping file: Mapping file must be either YAML or JSON"⟩ ∧
    load_column_mappings "m.yml"
        (.error ⟨"ScannerError", "while scanning a simple key"⟩)
        (.ok PyValue.null)
      = .error ⟨"Exception",
          "Error loading mapping file: while scanning a simple key"⟩ ∧
    load_column_mappings "m.json" (.ok PyValue.null)
        (.error ⟨"JSONDecodeError", "Expecting value"⟩)
      = .error ⟨"Exception", "Error loading mapping file: Expecting value"⟩ := by
  refine ⟨?_, ?_, ?_⟩
  · exact (c9_loader_error_wrapping "m.cfg" (.ok PyValue.null)
      (.ok PyValue.null) ⟨"Exception", "x"⟩).1 (by decide) (by decide)
      (by decide)
  · exact (c9_loader_error_wrapping "m.yml"
      (.error ⟨"ScannerError", "while scanning a simple key"⟩)
      (.ok PyValue.null) ⟨"ScannerError", "while scanning a simple key"⟩).2.1
      (Or.inr (by decide)) rfl
  · exact (c9_loader_error_wrapping "m.json" (.ok PyValue.null)
      (.error ⟨"JSONDecodeError", "Expecting value"⟩)
      ⟨"JSONDecodeError", "Expecting value"⟩).2.2 (by decide) (by decide)
      (by decide) rfl

end Ingest
